import Mathlib

/-!
Formal model of the anchor-vault program (programs/anchor-vault/src/lib.rs).

The program is a per-user custodial vault on a Solana-style ledger with four
instructions: initialize (open), deposit, withdraw and close.  We embed the
instruction handlers as pure functions over a state `VaultSim` that records
the lamport balances of the user and the vault fund account, whether the
VaultState record exists (with its two bump seeds), the rent-exemption floor
for the fund account (the host query `Rent::get()?.minimum_balance(data_len)`,
which is constant for a fixed account size), and the emitted event log.

Lamport amounts are modelled as `Nat`; the source saturating subtraction
`u64::saturating_sub` coincides with `Nat` subtraction, and the system-program
transfer is modelled as a primitive that fails when the source balance is
insufficient (so balances never go below zero and no `u64` overflow can occur
on the receiving side, total lamports being conserved by every transfer).

Each instruction is embedded as `exec… : VaultSim → … → VaultSim × Option Err`
following the source control flow: the first component is the working account
state at the point the handler returns (including mutations made before a
late failure), the second the error if the handler failed.  The host commits
a transaction atomically: `step` keeps the working state only on success and
rolls back to the pre-state on any error.
-/

namespace AnchorVault

/-- Source constant MIN_DEPOSIT_AMOUNT (lib.rs line 11). -/
def MIN_DEPOSIT_AMOUNT : Nat := 1000

/-- Source constant MAX_WITHDRAWAL_AMOUNT (lib.rs line 12). -/
def MAX_WITHDRAWAL_AMOUNT : Nat := 1000000000000

/-- The custom error codes of the program (enum VaultError in lib.rs). -/
inductive VaultError
  | InsufficientDepositAmount
  | InvalidWithdrawAmount
  | ExceedsMaxWithdrawal
  | InsufficientFundsAfterWithdrawal
  deriving DecidableEq, Repr

/-- Every error an instruction can surface: a program VaultError raised by
a require! guard, the generic error of a failed require_gte! assertion, a
system-program transfer failure (source balance insufficient), and the
Anchor account-validation failures for a missing or already existing
VaultState account. -/
inductive Err
  | vaultErr (e : VaultError)
  | requireGteViolated
  | hostTransferFailed
  | accountNotFound
  | accountAlreadyExists
  deriving DecidableEq, Repr

/-- Events emitted by the program (emit! in lib.rs).  Only the numeric
payloads matter to the model; the pubkey fields are not modelled. -/
inductive VEvent
  | vaultInitialized
  | fundsDeposited (amount : Nat)
  | fundsWithdrawn (amount : Nat)
  | vaultClosed (final_balance : Nat)
  deriving DecidableEq, Repr

/-- The ledger state visible to the program for one user: the lamport
balances of the user account and of the vault fund account, whether the
VaultState record exists together with its two recorded bump seeds, the
rent-exemption floor for the fund account, and the event log. -/
structure VaultSim where
  userLamports : Nat
  vaultLamports : Nat
  vaultStateExists : Bool
  state_bump : Nat
  vault_bump : Nat
  rentExempt : Nat
  events : List VEvent
  deriving DecidableEq, Repr

/-- The host system-program transfer: moves amount lamports between two
accounts, failing (with no effect) when the source balance is insufficient.
Returns the updated (source, destination) balances. -/
def transfer (fromBal toBal amount : Nat) : Option (Nat × Nat) :=
  if fromBal < amount then none
  else some (fromBal - amount, toBal + amount)

/-- Embedding of the initialize instruction (lib.rs lines 24-35 and
Initialize::initialize, lines 147-165).  Anchor account validation first:
the init constraint on vault_state fails when the account already exists.
The handler then records the two bump seeds in VaultState (set_inner),
computes the rent-exempt minimum for the fund account, and transfers that
amount from the user to the vault; on success the VaultInitialized event
is emitted. -/
def execOpen (s : VaultSim) (bs bv : Nat) : VaultSim × Option Err :=
  if s.vaultStateExists then (s, some Err.accountAlreadyExists)
  else
    let s1 := { s with vaultStateExists := true, state_bump := bs, vault_bump := bv }
    let rent_exempt := s1.rentExempt
    match transfer s1.userLamports s1.vaultLamports rent_exempt with
    | none => (s1, some Err.hostTransferFailed)
    | some (u, v) =>
      ({ s1 with userLamports := u, vaultLamports := v,
                 events := s1.events ++ [VEvent.vaultInitialized] }, none)

/-- Embedding of the deposit instruction (lib.rs lines 44-57 and
Payment::deposit, lines 200-209).  Anchor account validation requires the
VaultState account to exist; the handler then checks
amount >= MIN_DEPOSIT_AMOUNT and transfers amount from the user to the
vault; on success the FundsDeposited event is emitted. -/
def execDeposit (s : VaultSim) (amount : Nat) : VaultSim × Option Err :=
  if !s.vaultStateExists then (s, some Err.accountNotFound)
  else if MIN_DEPOSIT_AMOUNT ≤ amount then
    match transfer s.userLamports s.vaultLamports amount with
    | none => (s, some Err.hostTransferFailed)
    | some (u, v) =>
      ({ s with userLamports := u, vaultLamports := v,
                events := s.events ++ [VEvent.fundsDeposited amount] }, none)
  else (s, some (Err.vaultErr VaultError.InsufficientDepositAmount))

/-- Embedding of the withdraw instruction (lib.rs lines 66-88 and
Payment::withdraw, lines 217-244).  Anchor account validation requires the
VaultState account to exist; the handler checks amount > 0, then
amount <= MAX_WITHDRAWAL_AMOUNT, then the reserve pre-check
vault_balance.saturating_sub(amount) >= rent_exempt (Nat subtraction is
exactly saturating subtraction), then transfers amount from the vault to
the user, then re-checks require_gte!(vault lamports, rent_exempt) against
the updated balance; on success the FundsWithdrawn event is emitted. -/
def execWithdraw (s : VaultSim) (amount : Nat) : VaultSim × Option Err :=
  if !s.vaultStateExists then (s, some Err.accountNotFound)
  else if 0 < amount then
    if amount ≤ MAX_WITHDRAWAL_AMOUNT then
      let vault_balance := s.vaultLamports
      let rent_exempt := s.rentExempt
      if rent_exempt ≤ vault_balance - amount then
        match transfer s.vaultLamports s.userLamports amount with
        | none => (s, some Err.hostTransferFailed)
        | some (v, u) =>
          if s.rentExempt ≤ v then
            ({ s with vaultLamports := v, userLamports := u,
                      events := s.events ++ [VEvent.fundsWithdrawn amount] }, none)
          else
            ({ s with vaultLamports := v, userLamports := u },
             some Err.requireGteViolated)
      else (s, some (Err.vaultErr VaultError.InsufficientFundsAfterWithdrawal))
    else (s, some (Err.vaultErr VaultError.ExceedsMaxWithdrawal))
  else (s, some (Err.vaultErr VaultError.InvalidWithdrawAmount))

/-- Embedding of the close instruction (lib.rs lines 96-109 and
Close::close, lines 280-301).  Anchor account validation requires the
VaultState account to exist; the handler reads the vault balance, transfers
the entire balance from the vault to the user, and on success the
VaultState account is closed (the close = user constraint) and the
VaultClosed event carries the pre-drain balance. -/
def execClose (s : VaultSim) : VaultSim × Option Err :=
  if !s.vaultStateExists then (s, some Err.accountNotFound)
  else
    let vault_balance := s.vaultLamports
    match transfer s.vaultLamports s.userLamports s.vaultLamports with
    | none => (s, some Err.hostTransferFailed)
    | some (v, u) =>
      ({ s with vaultLamports := v, userLamports := u,
                vaultStateExists := false,
                events := s.events ++ [VEvent.vaultClosed vault_balance] }, none)

/-- The four instructions of the program.  The open instruction carries the
two bump seeds found by the runtime for the derived addresses. -/
inductive Op
  | openVault (bs bv : Nat)
  | deposit (amount : Nat)
  | withdraw (amount : Nat)
  | close
  deriving DecidableEq, Repr

/-- Dispatch one instruction to its handler, returning the working state
and the error, if any. -/
def exec (s : VaultSim) : Op → VaultSim × Option Err
  | Op.openVault bs bv => execOpen s bs bv
  | Op.deposit a => execDeposit s a
  | Op.withdraw a => execWithdraw s a
  | Op.close => execClose s

/-- Host transaction semantics: a transaction commits atomically, so the
working state is kept only when the handler succeeds and every error rolls
the whole transaction back to the pre-state. -/
def step (s : VaultSim) (op : Op) : Except Err VaultSim :=
  match exec s op with
  | (s1, none) => Except.ok s1
  | (_, some e) => Except.error e

/-- A ledger before any vault instruction has run: the user holds u
lamports, the vault fund address holds none, no VaultState record exists
and nothing has been emitted; r is the rent-exemption floor the host
reports for the fund account. -/
def initialState (u r : Nat) : VaultSim :=
  { userLamports := u, vaultLamports := 0, vaultStateExists := false,
    state_bump := 0, vault_bump := 0, rentExempt := r, events := [] }

/-- The states reachable from an initial ledger by successful
transactions (failed transactions leave the state unchanged). -/
inductive Reachable (u r : Nat) : VaultSim → Prop
  | start : Reachable u r (initialState u r)
  | next {s s' : VaultSim} {op : Op} :
      Reachable u r s → step s op = Except.ok s' → Reachable u r s'

/-- The reserve invariant of the spec: while the vault is open, the fund
account balance is at least the rent-exemption floor. -/
def ReserveInvariant (s : VaultSim) : Prop :=
  s.vaultStateExists = true → s.rentExempt ≤ s.vaultLamports

deriving instance DecidableEq for Except

theorem execOpen_exists (s : VaultSim) (bs bv : Nat)
    (h : s.vaultStateExists = true) :
    execOpen s bs bv = (s, some Err.accountAlreadyExists) := by
  simp [execOpen, h]

theorem execOpen_transfer_fail (s : VaultSim) (bs bv : Nat)
    (h : s.vaultStateExists = false) (htr : s.userLamports < s.rentExempt) :
    execOpen s bs bv =
      ({ s with vaultStateExists := true, state_bump := bs, vault_bump := bv },
       some Err.hostTransferFailed) := by
  simp [execOpen, transfer, h, htr]

theorem execOpen_ok (s : VaultSim) (bs bv : Nat)
    (h : s.vaultStateExists = false) (htr : s.rentExempt ≤ s.userLamports) :
    execOpen s bs bv =
      ({ s with vaultStateExists := true, state_bump := bs, vault_bump := bv,
                userLamports := s.userLamports - s.rentExempt,
                vaultLamports := s.vaultLamports + s.rentExempt,
                events := s.events ++ [VEvent.vaultInitialized] }, none) := by
  simp [execOpen, transfer, h, Nat.not_lt.mpr htr]

theorem execDeposit_not_found (s : VaultSim) (a : Nat)
    (h : s.vaultStateExists = false) :
    execDeposit s a = (s, some Err.accountNotFound) := by
  simp [execDeposit, h]

theorem execDeposit_below_min (s : VaultSim) (a : Nat)
    (h : s.vaultStateExists = true) (hmin : a < MIN_DEPOSIT_AMOUNT) :
    execDeposit s a = (s, some (Err.vaultErr VaultError.InsufficientDepositAmount)) := by
  simp [execDeposit, h, Nat.not_le.mpr hmin]

theorem execDeposit_transfer_fail (s : VaultSim) (a : Nat)
    (h : s.vaultStateExists = true) (hmin : MIN_DEPOSIT_AMOUNT ≤ a)
    (htr : s.userLamports < a) :
    execDeposit s a = (s, some Err.hostTransferFailed) := by
  simp [execDeposit, transfer, h, hmin, htr]

theorem execDeposit_ok (s : VaultSim) (a : Nat)
    (h : s.vaultStateExists = true) (hmin : MIN_DEPOSIT_AMOUNT ≤ a)
    (htr : a ≤ s.userLamports) :
    execDeposit s a =
      ({ s with userLamports := s.userLamports - a,
                vaultLamports := s.vaultLamports + a,
                events := s.events ++ [VEvent.fundsDeposited a] }, none) := by
  simp [execDeposit, transfer, h, hmin, Nat.not_lt.mpr htr]

theorem execWithdraw_not_found (s : VaultSim) (a : Nat)
    (h : s.vaultStateExists = false) :
    execWithdraw s a = (s, some Err.accountNotFound) := by
  simp [execWithdraw, h]

theorem execWithdraw_zero (s : VaultSim)
    (h : s.vaultStateExists = true) :
    execWithdraw s 0 = (s, some (Err.vaultErr VaultError.InvalidWithdrawAmount)) := by
  simp [execWithdraw, h]

theorem execWithdraw_above_max (s : VaultSim) (a : Nat)
    (h : s.vaultStateExists = true) (hmax : MAX_WITHDRAWAL_AMOUNT < a) :
    execWithdraw s a = (s, some (Err.vaultErr VaultError.ExceedsMaxWithdrawal)) := by
  have h0 : 0 < a := lt_of_le_of_lt (Nat.zero_le _) hmax
  simp [execWithdraw, h, h0, Nat.not_le.mpr hmax]

theorem execWithdraw_reserve_fail (s : VaultSim) (a : Nat)
    (h : s.vaultStateExists = true) (h0 : 0 < a) (hmax : a ≤ MAX_WITHDRAWAL_AMOUNT)
    (hres : s.vaultLamports - a < s.rentExempt) :
    execWithdraw s a =
      (s, some (Err.vaultErr VaultError.InsufficientFundsAfterWithdrawal)) := by
  simp [execWithdraw, h, h0, hmax, Nat.not_le.mpr hres]

theorem execWithdraw_transfer_fail (s : VaultSim) (a : Nat)
    (h : s.vaultStateExists = true) (h0 : 0 < a) (hmax : a ≤ MAX_WITHDRAWAL_AMOUNT)
    (hres : s.rentExempt ≤ s.vaultLamports - a) (htr : s.vaultLamports < a) :
    execWithdraw s a = (s, some Err.hostTransferFailed) := by
  simp [execWithdraw, transfer, h, h0, hmax, hres, htr]

theorem execWithdraw_ok (s : VaultSim) (a : Nat)
    (h : s.vaultStateExists = true) (h0 : 0 < a) (hmax : a ≤ MAX_WITHDRAWAL_AMOUNT)
    (hres : s.rentExempt ≤ s.vaultLamports - a) (htr : a ≤ s.vaultLamports) :
    execWithdraw s a =
      ({ s with vaultLamports := s.vaultLamports - a,
                userLamports := s.userLamports + a,
                events := s.events ++ [VEvent.fundsWithdrawn a] }, none) := by
  simp [execWithdraw, transfer, h, h0, hmax, hres, Nat.not_lt.mpr htr]

theorem execClose_not_found (s : VaultSim)
    (h : s.vaultStateExists = false) :
    execClose s = (s, some Err.accountNotFound) := by
  simp [execClose, h]

theorem execClose_ok (s : VaultSim) (h : s.vaultStateExists = true) :
    execClose s =
      ({ s with vaultLamports := 0,
                userLamports := s.userLamports + s.vaultLamports,
                vaultStateExists := false,
                events := s.events ++ [VEvent.vaultClosed s.vaultLamports] }, none) := by
  simp [execClose, transfer, h]

theorem step_open_ok_inv {s s' : VaultSim} {bs bv : Nat}
    (h : step s (Op.openVault bs bv) = Except.ok s') :
    s.vaultStateExists = false ∧ s.rentExempt ≤ s.userLamports ∧
    s' = { s with vaultStateExists := true, state_bump := bs, vault_bump := bv,
                  userLamports := s.userLamports - s.rentExempt,
                  vaultLamports := s.vaultLamports + s.rentExempt,
                  events := s.events ++ [VEvent.vaultInitialized] } := by
  by_cases h1 : s.vaultStateExists = true
  · simp [step, exec, execOpen_exists s bs bv h1] at h
  · have h1f : s.vaultStateExists = false := by simpa using h1
    by_cases h2 : s.rentExempt ≤ s.userLamports
    · simp [step, exec, execOpen_ok s bs bv h1f h2] at h
      exact ⟨h1f, h2, h.symm⟩
    · simp [step, exec, execOpen_transfer_fail s bs bv h1f (Nat.not_le.mp h2)] at h

theorem step_deposit_ok_inv {s s' : VaultSim} {a : Nat}
    (h : step s (Op.deposit a) = Except.ok s') :
    s.vaultStateExists = true ∧ MIN_DEPOSIT_AMOUNT ≤ a ∧ a ≤ s.userLamports ∧
    s' = { s with userLamports := s.userLamports - a,
                  vaultLamports := s.vaultLamports + a,
                  events := s.events ++ [VEvent.fundsDeposited a] } := by
  by_cases h1 : s.vaultStateExists = true
  · by_cases h2 : MIN_DEPOSIT_AMOUNT ≤ a
    · by_cases h3 : a ≤ s.userLamports
      · simp [step, exec, execDeposit_ok s a h1 h2 h3] at h
        exact ⟨h1, h2, h3, h.symm⟩
      · simp [step, exec,
          execDeposit_transfer_fail s a h1 h2 (Nat.not_le.mp h3)] at h
    · simp [step, exec, execDeposit_below_min s a h1 (Nat.not_le.mp h2)] at h
  · have h1f : s.vaultStateExists = false := by simpa using h1
    simp [step, exec, execDeposit_not_found s a h1f] at h

theorem step_withdraw_ok_inv {s s' : VaultSim} {a : Nat}
    (h : step s (Op.withdraw a) = Except.ok s') :
    s.vaultStateExists = true ∧ 0 < a ∧ a ≤ MAX_WITHDRAWAL_AMOUNT ∧
    s.rentExempt ≤ s.vaultLamports - a ∧ a ≤ s.vaultLamports ∧
    s' = { s with vaultLamports := s.vaultLamports - a,
                  userLamports := s.userLamports + a,
                  events := s.events ++ [VEvent.fundsWithdrawn a] } := by
  by_cases h1 : s.vaultStateExists = true
  · by_cases h2 : 0 < a
    · by_cases h3 : a ≤ MAX_WITHDRAWAL_AMOUNT
      · by_cases h4 : s.rentExempt ≤ s.vaultLamports - a
        · by_cases h5 : a ≤ s.vaultLamports
          · simp [step, exec, execWithdraw_ok s a h1 h2 h3 h4 h5] at h
            exact ⟨h1, h2, h3, h4, h5, h.symm⟩
          · simp [step, exec,
              execWithdraw_transfer_fail s a h1 h2 h3 h4 (Nat.not_le.mp h5)] at h
        · simp [step, exec,
            execWithdraw_reserve_fail s a h1 h2 h3 (Nat.not_le.mp h4)] at h
      · simp [step, exec, execWithdraw_above_max s a h1 (Nat.not_le.mp h3)] at h
    · have h2z : a = 0 := by omega
      subst h2z
      simp [step, exec, execWithdraw_zero s h1] at h
  · have h1f : s.vaultStateExists = false := by simpa using h1
    simp [step, exec, execWithdraw_not_found s a h1f] at h

theorem step_close_ok_inv {s s' : VaultSim}
    (h : step s Op.close = Except.ok s') :
    s.vaultStateExists = true ∧
    s' = { s with vaultLamports := 0,
                  userLamports := s.userLamports + s.vaultLamports,
                  vaultStateExists := false,
                  events := s.events ++ [VEvent.vaultClosed s.vaultLamports] } := by
  by_cases h1 : s.vaultStateExists = true
  · simp [step, exec, execClose_ok s h1] at h
    exact ⟨h1, h.symm⟩
  · have h1f : s.vaultStateExists = false := by simpa using h1
    simp [step, exec, execClose_not_found s h1f] at h

theorem reachable_absent_vault_empty {u r : Nat} {s : VaultSim}
    (h : Reachable u r s) : s.vaultStateExists = false → s.vaultLamports = 0 := by
  induction h with
  | start => intro _; rfl
  | next hr hstep ih =>
    rename_i s1 s1' op
    intro hex
    cases op with
    | openVault bs bv =>
      obtain ⟨_, _, hs'⟩ := step_open_ok_inv hstep
      subst hs'
      simp at hex
    | deposit a =>
      obtain ⟨h1, _, _, hs'⟩ := step_deposit_ok_inv hstep
      subst hs'
      simp at hex
      simp [h1] at hex
    | withdraw a =>
      obtain ⟨h1, _, _, _, _, hs'⟩ := step_withdraw_ok_inv hstep
      subst hs'
      simp at hex
      simp [h1] at hex
    | close =>
      obtain ⟨h1, hs'⟩ := step_close_ok_inv hstep
      subst hs'
      rfl

/-- Claim C1: for every withdraw on an open vault with 0 < amount,
amount at most MAX_WITHDRAWAL_AMOUNT, the host transfer able to succeed
(amount at most the vault balance) and the post-withdrawal balance at
least the rent-exemption floor, the instruction succeeds and the fund
account balance afterwards equals balance_before - amount (the user
gains amount and the FundsWithdrawn event is emitted). -/
theorem withdraw_success_decreases_balance (s : VaultSim) (a : Nat)
    (hopen : s.vaultStateExists = true) (h0 : 0 < a)
    (hmax : a ≤ MAX_WITHDRAWAL_AMOUNT) (htr : a ≤ s.vaultLamports)
    (hres : s.rentExempt ≤ s.vaultLamports - a) :
    step s (Op.withdraw a) =
      Except.ok { s with vaultLamports := s.vaultLamports - a,
                         userLamports := s.userLamports + a,
                         events := s.events ++ [VEvent.fundsWithdrawn a] } := by
  simp [step, exec, execWithdraw_ok s a hopen h0 hmax hres htr]

/-- Witness for C1: withdrawing 50 from an open vault holding 100
lamports with floor 10 succeeds and leaves 50 lamports in the vault. -/
theorem withdraw_success_decreases_balance_witness :
    step { userLamports := 0, vaultLamports := 100, vaultStateExists := true,
           state_bump := 1, vault_bump := 2, rentExempt := 10, events := [] }
        (Op.withdraw 50) =
      Except.ok { userLamports := 50, vaultLamports := 50, vaultStateExists := true,
                  state_bump := 1, vault_bump := 2, rentExempt := 10,
                  events := [VEvent.fundsWithdrawn 50] } :=
  withdraw_success_decreases_balance _ 50 rfl (by decide) (by decide)
    (by decide) (by decide)

/-- Claim C2, counterexample: the claim asserts withdraw fails with
InsufficientFundsAfterWithdrawal whenever 0 < amount <= MAX_WITHDRAWAL_AMOUNT
and balance_before - amount < minimum_reserve with subtraction over the
integers.  At an open vault with balance 0 and rent-exemption floor 0,
withdraw 1 satisfies that condition ((0 : Int) - 1 < 0), yet the code
computes the guard with saturating subtraction (0 >= 0, guard passes) and
fails at the host transfer instead, so the error is hostTransferFailed and
not InsufficientFundsAfterWithdrawal. -/
theorem withdraw_integer_reserve_counterexample :
    (0 : Nat) < 1 ∧ (1 : Nat) ≤ MAX_WITHDRAWAL_AMOUNT ∧
    (((⟨0, 0, true, 0, 0, 0, []⟩ : VaultSim).vaultLamports : ℤ) - 1 <
      ((⟨0, 0, true, 0, 0, 0, []⟩ : VaultSim).rentExempt : ℤ)) ∧
    step (⟨0, 0, true, 0, 0, 0, []⟩ : VaultSim) (Op.withdraw 1) ≠
      Except.error (Err.vaultErr VaultError.InsufficientFundsAfterWithdrawal) ∧
    step (⟨0, 0, true, 0, 0, 0, []⟩ : VaultSim) (Op.withdraw 1) =
      Except.error Err.hostTransferFailed := by
  decide

/-- Claim C2 as amended: for every withdraw on an open vault, the
instruction fails with InvalidWithdrawAmount exactly when amount = 0,
with ExceedsMaxWithdrawal exactly when amount is nonzero and above
MAX_WITHDRAWAL_AMOUNT, and with InsufficientFundsAfterWithdrawal exactly
when 0 < amount <= MAX_WITHDRAWAL_AMOUNT and the saturating difference
balance_before - amount (truncated at zero, as computed by the code) is
below the rent-exemption floor. -/
theorem withdraw_error_characterization (s : VaultSim) (a : Nat)
    (hopen : s.vaultStateExists = true) :
    (step s (Op.withdraw a) =
        Except.error (Err.vaultErr VaultError.InvalidWithdrawAmount) ↔ a = 0) ∧
    (step s (Op.withdraw a) =
        Except.error (Err.vaultErr VaultError.ExceedsMaxWithdrawal) ↔
      a ≠ 0 ∧ MAX_WITHDRAWAL_AMOUNT < a) ∧
    (step s (Op.withdraw a) =
        Except.error (Err.vaultErr VaultError.InsufficientFundsAfterWithdrawal) ↔
      0 < a ∧ a ≤ MAX_WITHDRAWAL_AMOUNT ∧ s.vaultLamports - a < s.rentExempt) := by
  by_cases h2 : 0 < a
  · by_cases h3 : a ≤ MAX_WITHDRAWAL_AMOUNT
    · by_cases h4 : s.rentExempt ≤ s.vaultLamports - a
      · by_cases h5 : a ≤ s.vaultLamports
        · simp [step, exec, execWithdraw_ok s a hopen h2 h3 h4 h5]
          omega
        · simp [step, exec,
            execWithdraw_transfer_fail s a hopen h2 h3 h4 (Nat.not_le.mp h5)]
          omega
      · simp [step, exec,
          execWithdraw_reserve_fail s a hopen h2 h3 (Nat.not_le.mp h4)]
        omega
    · simp [step, exec, execWithdraw_above_max s a hopen (Nat.not_le.mp h3)]
      omega
  · have hz : a = 0 := by omega
    subst hz
    simp [step, exec, execWithdraw_zero s hopen]

/-- Witness for the amended C2: on an open vault with balance 100 and
floor 10, withdraw 0 is characterized by the three equivalences. -/
theorem withdraw_error_characterization_witness :
    (step { userLamports := 0, vaultLamports := 100, vaultStateExists := true,
            state_bump := 0, vault_bump := 0, rentExempt := 10, events := [] }
         (Op.withdraw 0) =
        Except.error (Err.vaultErr VaultError.InvalidWithdrawAmount) ↔ 0 = 0) ∧
    (step { userLamports := 0, vaultLamports := 100, vaultStateExists := true,
            state_bump := 0, vault_bump := 0, rentExempt := 10, events := [] }
         (Op.withdraw 0) =
        Except.error (Err.vaultErr VaultError.ExceedsMaxWithdrawal) ↔
      0 ≠ 0 ∧ MAX_WITHDRAWAL_AMOUNT < 0) ∧
    (step { userLamports := 0, vaultLamports := 100, vaultStateExists := true,
            state_bump := 0, vault_bump := 0, rentExempt := 10, events := [] }
         (Op.withdraw 0) =
        Except.error (Err.vaultErr VaultError.InsufficientFundsAfterWithdrawal) ↔
      0 < 0 ∧ 0 ≤ MAX_WITHDRAWAL_AMOUNT ∧ 100 - 0 < 10) :=
  withdraw_error_characterization _ 0 rfl

/-- Claim C3: the reserve invariant (an open vault holds at least the
rent-exemption floor) is preserved by every successful instruction, and
is established outright by a successful open. -/
theorem reserve_invariant_preserved (s : VaultSim) (op : Op) (s' : VaultSim)
    (hstep : step s op = Except.ok s') :
    (ReserveInvariant s → ReserveInvariant s') ∧
    (∀ bs bv, op = Op.openVault bs bv → ReserveInvariant s') := by
  cases op with
  | openVault bs bv =>
    obtain ⟨h1, h2, hs'⟩ := step_open_ok_inv hstep
    subst hs'
    constructor
    · intro _ _
      simp
    · intro _ _ _ _
      simp
  | deposit a =>
    obtain ⟨h1, h2, h3, hs'⟩ := step_deposit_ok_inv hstep
    subst hs'
    constructor
    · intro hinv hex
      have := hinv h1
      simp
      omega
    · intro bs bv hop
      exact Op.noConfusion hop
  | withdraw a =>
    obtain ⟨h1, h2, h3, h4, h5, hs'⟩ := step_withdraw_ok_inv hstep
    subst hs'
    constructor
    · intro _ _
      simpa using h4
    · intro bs bv hop
      exact Op.noConfusion hop
  | close =>
    obtain ⟨h1, hs'⟩ := step_close_ok_inv hstep
    subst hs'
    constructor
    · intro _ hex
      simp at hex
    · intro bs bv hop
      exact Op.noConfusion hop

/-- Witness for C3: a successful open from a fresh ledger both preserves
and establishes the reserve invariant. -/
theorem reserve_invariant_preserved_witness :
    (ReserveInvariant (initialState 10 3) →
      ReserveInvariant { userLamports := 7, vaultLamports := 3,
                         vaultStateExists := true, state_bump := 1, vault_bump := 2,
                         rentExempt := 3, events := [VEvent.vaultInitialized] }) ∧
    (∀ bs bv, Op.openVault 1 2 = Op.openVault bs bv →
      ReserveInvariant { userLamports := 7, vaultLamports := 3,
                         vaultStateExists := true, state_bump := 1, vault_bump := 2,
                         rentExempt := 3, events := [VEvent.vaultInitialized] }) :=
  reserve_invariant_preserved (initialState 10 3) (Op.openVault 1 2) _ (by decide)

/-- Claim C4: on an open vault, deposit fails with
InsufficientDepositAmount and leaves the working account state untouched
when amount < MIN_DEPOSIT_AMOUNT, and succeeds when
amount >= MIN_DEPOSIT_AMOUNT and the user balance covers the transfer,
with the fund account balance increasing by exactly amount. -/
theorem deposit_spec (s : VaultSim) (a : Nat) (hopen : s.vaultStateExists = true) :
    (a < MIN_DEPOSIT_AMOUNT →
      step s (Op.deposit a) =
        Except.error (Err.vaultErr VaultError.InsufficientDepositAmount) ∧
      (exec s (Op.deposit a)).1 = s) ∧
    (MIN_DEPOSIT_AMOUNT ≤ a → a ≤ s.userLamports →
      step s (Op.deposit a) =
        Except.ok { s with userLamports := s.userLamports - a,
                           vaultLamports := s.vaultLamports + a,
                           events := s.events ++ [VEvent.fundsDeposited a] }) := by
  constructor
  · intro hmin
    constructor
    · simp [step, exec, execDeposit_below_min s a hopen hmin]
    · simp [exec, execDeposit_below_min s a hopen hmin]
  · intro hmin htr
    simp [step, exec, execDeposit_ok s a hopen hmin htr]

/-- Witness for C4: depositing 1000 lamports into an open vault holding
100 with user balance 5000 succeeds and the vault ends at 1100. -/
theorem deposit_spec_witness :
    step { userLamports := 5000, vaultLamports := 100, vaultStateExists := true,
           state_bump := 1, vault_bump := 2, rentExempt := 10, events := [] }
        (Op.deposit 1000) =
      Except.ok { userLamports := 4000, vaultLamports := 1100,
                  vaultStateExists := true, state_bump := 1, vault_bump := 2,
                  rentExempt := 10,
                  events := [VEvent.fundsDeposited 1000] } :=
  (deposit_spec _ 1000 rfl).2 (by decide) (by decide)

/-- Claim C5: a close on an open vault succeeds, drains the fund account
to zero (crediting the user with the whole balance), deletes the
VaultState record, and emits VaultClosed carrying the pre-drain
balance. -/
theorem close_drains_and_deletes (s : VaultSim) (hopen : s.vaultStateExists = true) :
    step s Op.close =
      Except.ok { s with vaultLamports := 0,
                         userLamports := s.userLamports + s.vaultLamports,
                         vaultStateExists := false,
                         events := s.events ++ [VEvent.vaultClosed s.vaultLamports] } := by
  simp [step, exec, execClose_ok s hopen]

/-- Witness for C5: closing an open vault holding 100 lamports leaves a
zero balance, no VaultState, and a VaultClosed event with
final_balance 100. -/
theorem close_drains_and_deletes_witness :
    step { userLamports := 7, vaultLamports := 100, vaultStateExists := true,
           state_bump := 1, vault_bump := 2, rentExempt := 10, events := [] }
        Op.close =
      Except.ok { userLamports := 107, vaultLamports := 0,
                  vaultStateExists := false, state_bump := 1, vault_bump := 2,
                  rentExempt := 10,
                  events := [VEvent.vaultClosed 100] } :=
  close_drains_and_deletes _ rfl

/-- Claim C6: for every successful open issued in a reachable ledger
state, the fund account balance afterwards equals exactly the
rent-exemption floor, and the VaultState record exists with both bump
seeds recorded.  Reachability matters: before any open the fund address
holds zero lamports, and a close drains it back to zero, so the
rent-exempt transfer lands on an empty account. -/
theorem open_balance_equals_reserve {u r : Nat} {s s' : VaultSim} {bs bv : Nat}
    (hreach : Reachable u r s)
    (hstep : step s (Op.openVault bs bv) = Except.ok s') :
    s'.vaultLamports = s.rentExempt ∧ s'.vaultStateExists = true ∧
    s'.state_bump = bs ∧ s'.vault_bump = bv := by
  obtain ⟨hex, htr, hs'⟩ := step_open_ok_inv hstep
  have hz : s.vaultLamports = 0 := reachable_absent_vault_empty hreach hex
  subst hs'
  simp [hz]

/-- Witness for C6: opening from a fresh ledger with floor 3 leaves
exactly 3 lamports in the fund account and records the bumps. -/
theorem open_balance_equals_reserve_witness :
    ({ userLamports := 7, vaultLamports := 3, vaultStateExists := true,
       state_bump := 1, vault_bump := 2, rentExempt := 3,
       events := [VEvent.vaultInitialized] } : VaultSim).vaultLamports =
        (initialState 10 3).rentExempt ∧
    ({ userLamports := 7, vaultLamports := 3, vaultStateExists := true,
       state_bump := 1, vault_bump := 2, rentExempt := 3,
       events := [VEvent.vaultInitialized] } : VaultSim).vaultStateExists = true ∧
    ({ userLamports := 7, vaultLamports := 3, vaultStateExists := true,
       state_bump := 1, vault_bump := 2, rentExempt := 3,
       events := [VEvent.vaultInitialized] } : VaultSim).state_bump = 1 ∧
    ({ userLamports := 7, vaultLamports := 3, vaultStateExists := true,
       state_bump := 1, vault_bump := 2, rentExempt := 3,
       events := [VEvent.vaultInitialized] } : VaultSim).vault_bump = 2 :=
  open_balance_equals_reserve Reachable.start (by decide)

/-- Claim C7: whenever an instruction handler fails, the transaction
aborts with that error (no committed state), and unless the failure is
the host transfer itself, the working account state at the point of
failure is exactly the pre-state: every program guard fires before any
balance mutation or event emission.  The only late guard, the
post-transfer reserve assertion in withdraw, never fires (see C8), so no
error path ever leaves a mutated working state behind a program guard. -/
theorem error_paths_have_no_side_effects (s : VaultSim) (op : Op) (e : Err)
    (h : (exec s op).2 = some e) :
    step s op = Except.error e ∧
    (e ≠ Err.hostTransferFailed → (exec s op).1 = s) := by
  constructor
  · rcases hx : exec s op with ⟨s1, oe⟩
    rw [hx] at h
    simp at h
    subst h
    simp [step, hx]
  · intro hne
    cases op with
    | openVault bs bv =>
      by_cases h1 : s.vaultStateExists = true
      · simp [exec, execOpen_exists s bs bv h1]
      · have h1f : s.vaultStateExists = false := by simpa using h1
        by_cases h2 : s.rentExempt ≤ s.userLamports
        · simp [exec, execOpen_ok s bs bv h1f h2] at h
        · simp [exec,
            execOpen_transfer_fail s bs bv h1f (Nat.not_le.mp h2)] at h
          simp [h] at hne
    | deposit a =>
      by_cases h1 : s.vaultStateExists = true
      · by_cases h2 : MIN_DEPOSIT_AMOUNT ≤ a
        · by_cases h3 : a ≤ s.userLamports
          · simp [exec, execDeposit_ok s a h1 h2 h3] at h
          · simp [exec, execDeposit_transfer_fail s a h1 h2 (Nat.not_le.mp h3)]
        · simp [exec, execDeposit_below_min s a h1 (Nat.not_le.mp h2)]
      · have h1f : s.vaultStateExists = false := by simpa using h1
        simp [exec, execDeposit_not_found s a h1f]
    | withdraw a =>
      by_cases h1 : s.vaultStateExists = true
      · by_cases h2 : 0 < a
        · by_cases h3 : a ≤ MAX_WITHDRAWAL_AMOUNT
          · by_cases h4 : s.rentExempt ≤ s.vaultLamports - a
            · by_cases h5 : a ≤ s.vaultLamports
              · simp [exec, execWithdraw_ok s a h1 h2 h3 h4 h5] at h
              · simp [exec, execWithdraw_transfer_fail s a h1 h2 h3 h4
                  (Nat.not_le.mp h5)]
            · simp [exec, execWithdraw_reserve_fail s a h1 h2 h3
                (Nat.not_le.mp h4)]
          · simp [exec, execWithdraw_above_max s a h1 (Nat.not_le.mp h3)]
        · have hz : a = 0 := by omega
          subst hz
          simp [exec, execWithdraw_zero s h1]
      · have h1f : s.vaultStateExists = false := by simpa using h1
        simp [exec, execWithdraw_not_found s a h1f]
    | close =>
      by_cases h1 : s.vaultStateExists = true
      · simp [exec, execClose_ok s h1] at h
      · have h1f : s.vaultStateExists = false := by simpa using h1
        simp [exec, execClose_not_found s h1f]

/-- Witness for C7: a deposit of 5 lamports on an open vault fails with
InsufficientDepositAmount, the transaction aborts with that error, and
the working state equals the pre-state. -/
theorem error_paths_have_no_side_effects_witness :
    step { userLamports := 5000, vaultLamports := 100, vaultStateExists := true,
           state_bump := 1, vault_bump := 2, rentExempt := 10, events := [] }
        (Op.deposit 5) =
      Except.error (Err.vaultErr VaultError.InsufficientDepositAmount) ∧
    (Err.vaultErr VaultError.InsufficientDepositAmount ≠ Err.hostTransferFailed →
      (exec { userLamports := 5000, vaultLamports := 100, vaultStateExists := true,
              state_bump := 1, vault_bump := 2, rentExempt := 10, events := [] }
          (Op.deposit 5)).1 =
        { userLamports := 5000, vaultLamports := 100, vaultStateExists := true,
          state_bump := 1, vault_bump := 2, rentExempt := 10, events := [] }) :=
  error_paths_have_no_side_effects _ (Op.deposit 5) _ (by decide)

/-- Claim C8: the withdraw handler evaluates the reserve condition twice
(the pre-transfer guard and the post-transfer require_gte assertion in
the embedded execWithdraw), and the post-transfer assertion never fails:
no execution of withdraw can surface the requireGteViolated error,
because the pre-transfer saturating check together with the transfer
subtracting exactly amount already forces the updated balance to stay at
or above the floor. -/
theorem post_transfer_check_never_fails (s : VaultSim) (a : Nat) (e : Err)
    (h : (exec s (Op.withdraw a)).2 = some e) :
    e ≠ Err.requireGteViolated := by
  by_cases h1 : s.vaultStateExists = true
  · by_cases h2 : 0 < a
    · by_cases h3 : a ≤ MAX_WITHDRAWAL_AMOUNT
      · by_cases h4 : s.rentExempt ≤ s.vaultLamports - a
        · by_cases h5 : a ≤ s.vaultLamports
          · simp [exec, execWithdraw_ok s a h1 h2 h3 h4 h5] at h
          · simp [exec, execWithdraw_transfer_fail s a h1 h2 h3 h4
              (Nat.not_le.mp h5)] at h
            subst h
            decide
        · simp [exec, execWithdraw_reserve_fail s a h1 h2 h3
            (Nat.not_le.mp h4)] at h
          subst h
          decide
      · simp [exec, execWithdraw_above_max s a h1 (Nat.not_le.mp h3)] at h
        subst h
        decide
    · have hz : a = 0 := by omega
      subst hz
      simp [exec, execWithdraw_zero s h1] at h
      subst h
      decide
  · have h1f : s.vaultStateExists = false := by simpa using h1
    simp [exec, execWithdraw_not_found s a h1f] at h
    subst h
    decide

/-- Witness for C8: the failing withdraw of 0 lamports surfaces
InvalidWithdrawAmount, which is not the post-transfer assertion
error. -/
theorem post_transfer_check_never_fails_witness :
    Err.vaultErr VaultError.InvalidWithdrawAmount ≠ Err.requireGteViolated :=
  post_transfer_check_never_fails
    { userLamports := 0, vaultLamports := 100, vaultStateExists := true,
      state_bump := 1, vault_bump := 2, rentExempt := 10, events := [] }
    0 _ (by decide)

/-- Claim C9: a successful deposit changes only the two balances (vault
up by amount, user down by amount) and appends the FundsDeposited event;
in particular the recorded state_bump and vault_bump, the existence of
the VaultState record and the rent floor are unchanged, and the same
bump and record fields are unchanged by a successful withdraw. -/
theorem payment_preserves_frame (s : VaultSim) (a : Nat) (s' : VaultSim) :
    (step s (Op.deposit a) = Except.ok s' →
      s'.vaultLamports = s.vaultLamports + a ∧
      s'.userLamports = s.userLamports - a ∧
      s'.state_bump = s.state_bump ∧ s'.vault_bump = s.vault_bump ∧
      s'.vaultStateExists = s.vaultStateExists ∧ s'.rentExempt = s.rentExempt ∧
      s'.events = s.events ++ [VEvent.fundsDeposited a]) ∧
    (step s (Op.withdraw a) = Except.ok s' →
      s'.state_bump = s.state_bump ∧ s'.vault_bump = s.vault_bump ∧
      s'.vaultStateExists = s.vaultStateExists ∧ s'.rentExempt = s.rentExempt) := by
  constructor
  · intro h
    obtain ⟨_, _, _, hs'⟩ := step_deposit_ok_inv h
    subst hs'
    simp
  · intro h
    obtain ⟨_, _, _, _, _, hs'⟩ := step_withdraw_ok_inv h
    subst hs'
    simp

/-- Witness for C9: the successful deposit of 1000 lamports changes only
the balances and the event log. -/
theorem payment_preserves_frame_witness :
    ({ userLamports := 4000, vaultLamports := 1100, vaultStateExists := true,
       state_bump := 1, vault_bump := 2, rentExempt := 10,
       events := [VEvent.fundsDeposited 1000] } : VaultSim).vaultLamports =
      ({ userLamports := 5000, vaultLamports := 100, vaultStateExists := true,
         state_bump := 1, vault_bump := 2, rentExempt := 10,
         events := [] } : VaultSim).vaultLamports + 1000 ∧
    ({ userLamports := 4000, vaultLamports := 1100, vaultStateExists := true,
       state_bump := 1, vault_bump := 2, rentExempt := 10,
       events := [VEvent.fundsDeposited 1000] } : VaultSim).userLamports =
      ({ userLamports := 5000, vaultLamports := 100, vaultStateExists := true,
         state_bump := 1, vault_bump := 2, rentExempt := 10,
         events := [] } : VaultSim).userLamports - 1000 ∧
    ({ userLamports := 4000, vaultLamports := 1100, vaultStateExists := true,
       state_bump := 1, vault_bump := 2, rentExempt := 10,
       events := [VEvent.fundsDeposited 1000] } : VaultSim).state_bump =
      ({ userLamports := 5000, vaultLamports := 100, vaultStateExists := true,
         state_bump := 1, vault_bump := 2, rentExempt := 10,
         events := [] } : VaultSim).state_bump ∧
    ({ userLamports := 4000, vaultLamports := 1100, vaultStateExists := true,
       state_bump := 1, vault_bump := 2, rentExempt := 10,
       events := [VEvent.fundsDeposited 1000] } : VaultSim).vault_bump =
      ({ userLamports := 5000, vaultLamports := 100, vaultStateExists := true,
         state_bump := 1, vault_bump := 2, rentExempt := 10,
         events := [] } : VaultSim).vault_bump ∧
    ({ userLamports := 4000, vaultLamports := 1100, vaultStateExists := true,
       state_bump := 1, vault_bump := 2, rentExempt := 10,
       events := [VEvent.fundsDeposited 1000] } : VaultSim).vaultStateExists =
      ({ userLamports := 5000, vaultLamports := 100, vaultStateExists := true,
         state_bump := 1, vault_bump := 2, rentExempt := 10,
         events := [] } : VaultSim).vaultStateExists ∧
    ({ userLamports := 4000, vaultLamports := 1100, vaultStateExists := true,
       state_bump := 1, vault_bump := 2, rentExempt := 10,
       events := [VEvent.fundsDeposited 1000] } : VaultSim).rentExempt =
      ({ userLamports := 5000, vaultLamports := 100, vaultStateExists := true,
         state_bump := 1, vault_bump := 2, rentExempt := 10,
         events := [] } : VaultSim).rentExempt ∧
    ({ userLamports := 4000, vaultLamports := 1100, vaultStateExists := true,
       state_bump := 1, vault_bump := 2, rentExempt := 10,
       events := [VEvent.fundsDeposited 1000] } : VaultSim).events =
      ({ userLamports := 5000, vaultLamports := 100, vaultStateExists := true,
         state_bump := 1, vault_bump := 2, rentExempt := 10,
         events := [] } : VaultSim).events ++ [VEvent.fundsDeposited 1000] :=
  (payment_preserves_frame _ 1000 _).1 (by decide)

/-- Claim C10: the withdraw reserve pre-check computes
balance_before - amount with saturating (truncated at zero) subtraction,
so when amount exceeds the vault balance the guard compares 0 against
the rent-exemption floor: with floor 0 the pre-check passes and the
rejection is left to the host transfer (error hostTransferFailed), while
with a positive floor the guard itself fails with
InsufficientFundsAfterWithdrawal. -/
theorem saturating_precheck_behavior (s : VaultSim) (a : Nat)
    (hopen : s.vaultStateExists = true) (h0 : 0 < a)
    (hmax : a ≤ MAX_WITHDRAWAL_AMOUNT) (hover : s.vaultLamports < a) :
    s.vaultLamports - a = 0 ∧
    (s.rentExempt = 0 →
      step s (Op.withdraw a) = Except.error Err.hostTransferFailed) ∧
    (0 < s.rentExempt →
      step s (Op.withdraw a) =
        Except.error (Err.vaultErr VaultError.InsufficientFundsAfterWithdrawal)) := by
  have hz : s.vaultLamports - a = 0 := by omega
  refine ⟨hz, ?_, ?_⟩
  · intro hr
    have h4 : s.rentExempt ≤ s.vaultLamports - a := by omega
    simp [step, exec, execWithdraw_transfer_fail s a hopen h0 hmax h4 hover]
  · intro hr
    have h4 : s.vaultLamports - a < s.rentExempt := by omega
    simp [step, exec, execWithdraw_reserve_fail s a hopen h0 hmax h4]

/-- Witness for C10: withdrawing 1 lamport from an open vault holding 0
with floor 0 passes the saturating pre-check and fails at the host
transfer. -/
theorem saturating_precheck_behavior_witness :
    step (⟨0, 0, true, 0, 0, 0, []⟩ : VaultSim) (Op.withdraw 1) =
      Except.error Err.hostTransferFailed :=
  (saturating_precheck_behavior (⟨0, 0, true, 0, 0, 0, []⟩ : VaultSim) 1 rfl
    (by decide) (by decide) (by decide)).2.1 rfl

end AnchorVault
